import Mathlib

/-!
# Inquiry triage lambdas: classifier (`judge-category`) and answer (`create-answer`)

A shallow embedding of the two Go handlers under `go-lambdas/`.

* Go `string` values are Lean `String`s.  Every string that reaches the matching
  code comes out of `encoding/json` or a DynamoDB `S` attribute and is therefore
  valid UTF-8, so Go's byte-wise `strings.Contains` and rune-wise
  `strings.TrimSpace` agree with the code-point versions defined here.
* Go `error` values are `GoError` trees that remember what `%w` wrapped.
* The three collaborators (DynamoDB, Bedrock runtime, Bedrock agent runtime) are
  explicit parameters: the table contents plus injected faults for the store, and
  a function from request to outcome for each AI service.
* `attributevalue.UnmarshalMap` ranges over the attributes of the item read and
  assigns each to the struct field whose name it equals or, failing that, equals
  up to case; a later attribute overwrites an earlier one.  The order of that
  range is a parameter as well.
* `range` over the `categories` map has no fixed order in Go; each loop takes the
  order it iterates in as a parameter, a permutation of `categories`.
-/

namespace InquiryLambdas

/-! ## Go runtime pieces -/

/-- Go `error`: either a fresh error or one produced by `fmt.Errorf("...: %w", err)`. -/
inductive GoError where
  | new (msg : String)
  | wrap (msg : String) (inner : GoError)
  deriving DecidableEq, Repr

/-- Go `errors.Unwrap`. -/
def GoError.unwrap : GoError → Option GoError
  | .new _ => none
  | .wrap _ inner => some inner

/-- The `Error()` text: `fmt.Errorf("msg: %w", inner)` renders as `msg: inner`. -/
def GoError.text : GoError → String
  | .new msg => msg
  | .wrap msg inner => msg ++ ": " ++ inner.text

/-- Go `unicode.IsSpace`: the Latin-1 cases and the Unicode `White_Space` table. -/
def isSpace (r : Char) : Bool :=
  let n := r.toNat
  if n ≤ 0xFF then
    n = 0x09 || n = 0x0A || n = 0x0B || n = 0x0C || n = 0x0D || n = 0x20 || n = 0x85 || n = 0xA0
  else
    n = 0x1680 || (0x2000 ≤ n && n ≤ 0x200A) || n = 0x2028 || n = 0x2029 || n = 0x202F
      || n = 0x205F || n = 0x3000

/-- Drop the leading white space of a rune sequence. -/
def trimLeft : List Char → List Char
  | [] => []
  | c :: cs => if isSpace c then trimLeft cs else c :: cs

/-- Go `strings.TrimSpace`: leading and trailing white space removed. -/
def trimSpace (s : String) : String :=
  ⟨(trimLeft (trimLeft s.data).reverse).reverse⟩

/-- A rune sequence that is non-empty and neither starts nor ends with white space. -/
def isTrimmed (l : List Char) : Bool :=
  match l.head?, l.getLast? with
  | some a, some z => !isSpace a && !isSpace z
  | _, _ => false

/-- Whether the rune sequence `sub` occurs at the very start of `s`. -/
def matchesAt : List Char → List Char → Bool
  | _, [] => true
  | [], _ :: _ => false
  | c :: cs, p :: ps => c = p && matchesAt cs ps

/-- Substring search on rune sequences: `sub` occurs at some offset of `s`. -/
def containsChars : List Char → List Char → Bool
  | [], sub => matchesAt [] sub
  | c :: cs, sub => matchesAt (c :: cs) sub || containsChars cs sub

/-- Go `strings.Contains(s, substr)`. -/
def contains (s substr : String) : Bool :=
  containsChars s.data substr.data

/-- Simple case folding of one rune, as far as it can reach ASCII: the upper-case
ASCII letters, the Kelvin sign and the long s go to their lower-case ASCII
letter, every other rune stays. -/
def foldRune (r : Char) : Char :=
  let n := r.toNat
  if 0x41 ≤ n ∧ n ≤ 0x5A then Char.ofNat (n + 0x20)
  else if n = 0x212A then Char.ofNat 0x6B
  else if n = 0x017F then Char.ofNat 0x73
  else r

/-- Go `strings.EqualFold(field, name)` for an ASCII `field`, which every struct
field name below is: equal rune by rune under simple case folding. -/
def equalFold (field name : String) : Bool :=
  field.data.map foldRune = name.data.map foldRune

/-- The decoder's `FieldByName`: the field called `name`, else the first field
whose name equals `name` up to case. -/
def fieldByName (fields : List String) (name : String) : Option String :=
  if name ∈ fields then some name else fields.find? (fun f => equalFold f name)

/-- Go `strings.Join(elems, sep)`. -/
def join : List String → String → String
  | [], _ => ""
  | [a], _ => a
  | a :: b :: rest, sep => a ++ sep ++ join (b :: rest) sep

/-! ## judge-category -/

/-- The `categories` map literal, in declaration order: name and description. -/
def categories : List (String × String) :=
  [ ("質問", "お客様からの質問や疑問"),
    ("改善要望", "サービスや商品の改善に関する要望"),
    ("ポジティブな感想", "満足度の高い感想や評価"),
    ("ネガティブな感想", "不満や問題点に関する感想"),
    ("その他", "上記に該当しない内容") ]

/-- The keys of `categories`. -/
def categoryNames : List String := categories.map Prod.fst

/-- The map lookup `_, ok := categories[category]`. -/
def isCategory (category : String) : Bool :=
  decide (category ∈ categoryNames)

/-! ## The inquiry table (DynamoDB collaborator) -/

/-- A stored item: attribute name to string (`S`) value. -/
abbrev Item := String → Option String

/-- The inquiry table: partition key `id` to item. -/
abbrev Table := String → Option Item

/-- Process configuration read from the environment in `init`. -/
structure Config where
  inquiryTable : String
  kbID : String
  awsRegion : String

/-- The store as one invocation sees it: the table contents and, for each of the
three fallible steps (`GetItem`, `attributevalue.UnmarshalMap` of the item read,
`UpdateItem`), the error it fails with, if it fails.  `decodeOrder` is the order
in which `UnmarshalMap` ranges over the attribute names of the item read. -/
structure DynamoDB where
  table : Table
  getItemErr : Option GoError
  unmarshalErr : Option GoError
  updateItemErr : Option GoError
  decodeOrder : List String

/-- The effect of `SET name = value, ...` on one item. -/
def setAttributes (item : Item) : List (String × String) → Item
  | [] => item
  | (name, value) :: rest =>
    fun n => if n = name then some value else setAttributes item rest n

/-- A successful `UpdateItem` with key `id`: the attributes named in the `SET`
expression are assigned on that item (created with only its key when absent);
nothing else in the table is touched. -/
def updateItem (table : Table) (id : String) (sets : List (String × String)) : Table :=
  fun key =>
    if key = id then
      some (setAttributes
        ((table key).getD (fun n => if n = "id" then some id else none)) sets)
    else table key

/-- Trigger payload. -/
structure InquiryEvent where
  id : String

/-! ## judge-category: request and reply of the generative-text service -/

/-- One chat message of the request. -/
structure Message where
  role : String
  content : String

/-- The JSON request body sent to the model. -/
structure BedrockRequestBody where
  anthropicVersion : String
  maxTokens : Nat
  messages : List Message
  temperature : ℚ

/-- Input of `InvokeModel`; `body` is the request before `json.Marshal`, which
cannot fail on this struct. -/
structure InvokeModelInput where
  modelId : String
  body : BedrockRequestBody
  contentType : String

/-- One element of the reply's `content` array. -/
structure ContentBlock where
  text : String

/-- The reply body after `json.Unmarshal`. -/
structure BedrockResponseBody where
  content : List ContentBlock

/-- What `InvokeModel` followed by `json.Unmarshal` can yield. -/
inductive InvokeModelResult where
  | failed (err : GoError)
  | malformed (err : GoError)
  | reply (responseBody : BedrockResponseBody)

/-- External calls an invocation makes, in order. -/
inductive Call where
  | getItem (tableName id : String)
  | invokeModel (input : InvokeModelInput)
  | retrieveAndGenerate (inputText knowledgeBaseId modelArn : String)
  | updateItem (tableName id : String) (sets : List (String × String))

/-- What one handler invocation leaves behind: the returned pair (result map or
error), the table afterwards, and the external calls made. -/
structure Outcome where
  result : Except GoError (List (String × String))
  table : Table
  calls : List Call

namespace JudgeCategory

/-- The decoded item of this handler. -/
structure InquiryItem where
  id : String
  reviewText : String

/-- Assignment to the field with the given `dynamodbav` name. -/
def setField (item : InquiryItem) (field value : String) : InquiryItem :=
  if field = "id" then { item with id := value }
  else if field = "reviewText" then { item with reviewText := value }
  else item

/-- Go `attributevalue.UnmarshalMap` into a zero `InquiryItem`, on string
attributes: the attributes are visited in `order`; one that names a field,
exactly or up to case, is stored in it, the others are skipped. -/
def unmarshalMap (attrs : Item) (order : List String) : InquiryItem :=
  order.foldl
    (fun item name =>
      match attrs name, fieldByName ["id", "reviewText"] name with
      | some value, some field => setField item field value
      | _, _ => item)
    { id := "", reviewText := "" }

/-- The prompt of `classifyInquiryWithBedrock`; `order` is the order in which the
first `range categories` loop runs. -/
def prompt (order : List (String × String)) (text : String) : String :=
  let categoryList := order.map fun e => "- " ++ e.1 ++ ": " ++ e.2
  "以下の問い合わせ内容を分析し、最も適切なカテゴリを1つ選んでください。\n\nカテゴリ:\n"
    ++ join categoryList "\n"
    ++ "\n\n問い合わせ内容:\n" ++ text
    ++ "\n\n指示:\n- 上記のカテゴリの中から最も適切なものを1つ選んでください\n"
    ++ "- カテゴリ名のみを回答してください（説明は不要）\n"
    ++ "- 判断が困難な場合は「その他」を選んでください\n\n回答:"

/-- The `InvokeModel` input built by `classifyInquiryWithBedrock`. -/
def invokeModelInput (order : List (String × String)) (text : String) : InvokeModelInput :=
  { modelId := "anthropic.claude-3-haiku-20240307-v1:0"
    body :=
      { anthropicVersion := "bedrock-2023-05-31"
        maxTokens := 50
        messages := [{ role := "user", content := prompt order text }]
        temperature := 1 / 10 }
    contentType := "application/json" }

/-- The substring loop `for cat := range categories`: the first name, in the
order the loop runs, that `category` contains. -/
def firstContained (category : String) : List (String × String) → Option String
  | [] => none
  | e :: rest => if contains category e.1 then some e.1 else firstContained category rest

/-- Go `classifyInquiryWithBedrock`.  `promptOrder` and `matchOrder` are the
iteration orders of the two `range categories` loops. -/
def classifyInquiryWithBedrock (bedrock : InvokeModelInput → InvokeModelResult)
    (promptOrder matchOrder : List (String × String)) (text : String) :
    Except GoError String :=
  match bedrock (invokeModelInput promptOrder text) with
  | .failed err => .error (.wrap "failed to invoke bedrock model" err)
  | .malformed err => .error (.wrap "failed to unmarshal bedrock response body" err)
  | .reply responseBody =>
    match responseBody.content with
    | first :: _ =>
      let category := trimSpace first.text
      if isCategory category then .ok category
      else
        match firstContained category matchOrder with
        | some cat => .ok cat
        | none => .ok "その他"
    | [] => .ok "その他"

/-- Go `handler` of judge-category. -/
def handler (cfg : Config) (db : DynamoDB) (bedrock : InvokeModelInput → InvokeModelResult)
    (promptOrder matchOrder : List (String × String)) (event : InquiryEvent) : Outcome :=
  if event.id = "" then
    ⟨.error (.new "missing inquiry id"), db.table, []⟩
  else
    let read := Call.getItem cfg.inquiryTable event.id
    match db.getItemErr with
    | some err => ⟨.error (.wrap "failed to get item from dynamodb" err), db.table, [read]⟩
    | none =>
      match db.table event.id with
      | none => ⟨.error (.new "inquiry not found"), db.table, [read]⟩
      | some attrs =>
        match db.unmarshalErr with
        | some err =>
          ⟨.error (.wrap "failed to unmarshal dynamodb item" err), db.table, [read]⟩
        | none =>
          let item := unmarshalMap attrs db.decodeOrder
          if item.reviewText = "" then
            ⟨.error (.new "no review text found"), db.table, [read]⟩
          else
            let ask := Call.invokeModel (invokeModelInput promptOrder item.reviewText)
            match classifyInquiryWithBedrock bedrock promptOrder matchOrder item.reviewText with
            | .error err =>
              ⟨.error (.wrap "failed to classify inquiry" err), db.table, [read, ask]⟩
            | .ok category =>
              let sets := [("category", category), ("status", "categorized")]
              let write := Call.updateItem cfg.inquiryTable event.id sets
              match db.updateItemErr with
              | some err =>
                ⟨.error (.wrap "failed to update item in dynamodb" err), db.table,
                  [read, ask, write]⟩
              | none =>
                ⟨.ok [("inquiry_id", event.id), ("category", category), ("status", "success")],
                  updateItem db.table event.id sets, [read, ask, write]⟩

end JudgeCategory

/-! ## create-answer -/

namespace CreateAnswer

/-- The decoded item of this handler. -/
structure InquiryItem where
  id : String
  reviewText : String
  category : String

/-- Assignment to the field with the given `dynamodbav` name. -/
def setField (item : InquiryItem) (field value : String) : InquiryItem :=
  if field = "id" then { item with id := value }
  else if field = "reviewText" then { item with reviewText := value }
  else if field = "category" then { item with category := value }
  else item

/-- Go `attributevalue.UnmarshalMap` into a zero `InquiryItem`, on string
attributes: the attributes are visited in `order`; one that names a field,
exactly or up to case, is stored in it, the others are skipped. -/
def unmarshalMap (attrs : Item) (order : List String) : InquiryItem :=
  order.foldl
    (fun item name =>
      match attrs name, fieldByName ["id", "reviewText", "category"] name with
      | some value, some field => setField item field value
      | _, _ => item)
    { id := "", reviewText := "", category := "" }

/-- Input of `RetrieveAndGenerate` (knowledge-base configuration). -/
structure RetrieveAndGenerateInput where
  text : String
  knowledgeBaseId : String
  modelArn : String

/-- The `Output` member of the response; `text` is a `*string`. -/
structure RetrieveAndGenerateOutputText where
  text : Option String

/-- The response of `RetrieveAndGenerate`; `output` is a pointer. -/
structure RetrieveAndGenerateOutput where
  output : Option RetrieveAndGenerateOutputText

/-- The instruction prefix chosen by the `switch category`. -/
def systemPrompt (category : String) : String :=
  if category = "ポジティブな感想" then
    "お客様からの嬉しいお言葉に対して、感謝の気持ちを込めて丁寧に返答してください。"
  else if category = "ネガティブな感想" then
    "お客様のご不満に対して、謝罪の気持ちを込めて改善への取り組みを示しながら丁寧に返答してください。"
  else if category = "質問" then
    "お客様からの質問に対して、正確で分かりやすい情報を提供してください。"
  else if category = "改善要望" then
    "お客様からの貴重なご意見として受け止め、検討することをお伝えしながら丁寧に返答してください。"
  else
    "お客様からの問い合わせに丁寧で親切な回答をしてください。"

/-- The request built by `generateAnswerWithBedrockKB`. -/
def retrieveAndGenerateInput (cfg : Config) (question category : String) :
    RetrieveAndGenerateInput :=
  { text := systemPrompt category ++ "\n\n質問: " ++ question
    knowledgeBaseId := cfg.kbID
    modelArn := "arn:aws:bedrock:" ++ cfg.awsRegion
      ++ "::foundation-model/anthropic.claude-3-haiku-20240307-v1:0" }

/-- Go `generateAnswerWithBedrockKB`. -/
def generateAnswerWithBedrockKB (cfg : Config)
    (bedrock : RetrieveAndGenerateInput → Except GoError RetrieveAndGenerateOutput)
    (question category : String) : Except GoError String :=
  match bedrock (retrieveAndGenerateInput cfg question category) with
  | .error err => .error (.wrap "failed to retrieve and generate from bedrock" err)
  | .ok output =>
    match output.output with
    | none => .error (.new "received nil output from bedrock")
    | some out =>
      match out.text with
      | some text => .ok text
      | none => .error (.new "unexpected or empty output from bedrock")

/-- The canned answer the handler substitutes when generation fails. -/
def fallbackAnswer : String :=
  "申し訳ございませんが、現在回答を生成することができません。後ほど担当者からご連絡いたします。"

/-- Go `handler` of create-answer. -/
def handler (cfg : Config) (db : DynamoDB)
    (bedrock : RetrieveAndGenerateInput → Except GoError RetrieveAndGenerateOutput)
    (event : InquiryEvent) : Outcome :=
  if event.id = "" then
    ⟨.error (.new "missing inquiry id"), db.table, []⟩
  else
    let read := Call.getItem cfg.inquiryTable event.id
    match db.getItemErr with
    | some err => ⟨.error (.wrap "failed to get item from dynamodb" err), db.table, [read]⟩
    | none =>
      match db.table event.id with
      | none => ⟨.error (.new "inquiry not found"), db.table, [read]⟩
      | some attrs =>
        match db.unmarshalErr with
        | some err =>
          ⟨.error (.wrap "failed to unmarshal dynamodb item" err), db.table, [read]⟩
        | none =>
          let item := unmarshalMap attrs db.decodeOrder
          if item.reviewText = "" then
            ⟨.error (.new "no review text found"), db.table, [read]⟩
          else
            let req := retrieveAndGenerateInput cfg item.reviewText item.category
            let ask := Call.retrieveAndGenerate req.text req.knowledgeBaseId req.modelArn
            let answer :=
              match generateAnswerWithBedrockKB cfg bedrock item.reviewText item.category with
              | .error _ => fallbackAnswer
              | .ok answer => answer
            let sets := [("answer", answer), ("status", "answered")]
            let write := Call.updateItem cfg.inquiryTable event.id sets
            match db.updateItemErr with
            | some err =>
              ⟨.error (.wrap "failed to update item in dynamodb" err), db.table,
                [read, ask, write]⟩
            | none =>
              ⟨.ok [("inquiry_id", event.id), ("answer", answer), ("status", "success")],
                updateItem db.table event.id sets, [read, ask, write]⟩

end CreateAnswer

/-! ## Sample table used by the concrete instances -/

/-- A sample configuration. -/
def sampleConfig : Config :=
  { inquiryTable := "inquiries", kbID := "KB0001", awsRegion := "ap-northeast-1" }

/-- A stored inquiry that has been classified but not answered. -/
def sampleItem : Item := fun n =>
  if n = "id" then some "inq-1"
  else if n = "reviewText" then some "営業時間を教えてください"
  else if n = "category" then some "質問"
  else if n = "status" then some "categorized"
  else if n = "createdAt" then some "2024-05-01T09:00:00Z"
  else none

/-- A stored inquiry without review text. -/
def blankItem : Item := fun n =>
  if n = "id" then some "inq-2"
  else if n = "reviewText" then some ""
  else if n = "category" then some ""
  else if n = "status" then some "unprocessed"
  else if n = "createdAt" then some "2024-05-02T10:30:00Z"
  else none

/-- The attribute names of the sample items, in one possible decoding order. -/
def sampleOrder : List String := ["status", "id", "reviewText", "createdAt", "category"]

/-- A stored inquiry whose attribute names are capitalised. -/
def capitalisedItem : Item := fun n =>
  if n = "id" then some "inq-3"
  else if n = "ReviewText" then some "配送が遅いです"
  else if n = "Category" then some "ネガティブな感想"
  else none

/-- A stored inquiry with two attributes that both decode into the review text. -/
def shadowedItem : Item := fun n =>
  if n = "id" then some "inq-4"
  else if n = "reviewText" then some "配送が遅いです"
  else if n = "REVIEWTEXT" then some ""
  else none

/-- A table holding the four sample items under `inq-1` to `inq-4`. -/
def sampleTable : Table := fun id =>
  if id = "inq-1" then some sampleItem
  else if id = "inq-2" then some blankItem
  else if id = "inq-3" then some capitalisedItem
  else if id = "inq-4" then some shadowedItem
  else none

/-- The sample table with every store step succeeding. -/
def sampleDb : DynamoDB :=
  { table := sampleTable, getItemErr := none, unmarshalErr := none, updateItemErr := none,
    decodeOrder := sampleOrder }

/-- The sample table with a failing write. -/
def readOnlyDb : DynamoDB :=
  { sampleDb with updateItemErr := some (.new "ProvisionedThroughputExceededException") }

/-- The sample table as read when the capitalised item is decoded. -/
def capitalisedDb : DynamoDB :=
  { sampleDb with decodeOrder := ["Category", "id", "ReviewText"] }

/-- The sample table as read when the empty `REVIEWTEXT` is decoded last. -/
def shadowedDb : DynamoDB :=
  { sampleDb with decodeOrder := ["id", "reviewText", "REVIEWTEXT"] }

/-- The sample table as read when the filled `reviewText` is decoded last. -/
def unshadowedDb : DynamoDB :=
  { sampleDb with decodeOrder := ["REVIEWTEXT", "id", "reviewText"] }

/-- The same read, with a failing write. -/
def readOnlyUnshadowedDb : DynamoDB :=
  { unshadowedDb with updateItemErr := some (.new "ProvisionedThroughputExceededException") }

/-- A retrieval service that fails exactly on requests opening with the
instruction for negative feedback and answers all others. -/
def failingOnComplaints :
    CreateAnswer.RetrieveAndGenerateInput → Except GoError CreateAnswer.RetrieveAndGenerateOutput :=
  fun input =>
    if matchesAt input.text.data (CreateAnswer.systemPrompt "ネガティブな感想").data then
      .error (.new "ThrottlingException")
    else .ok ⟨some ⟨some "お問い合わせありがとうございます。"⟩⟩

/-- A retrieval service that answers every request with the same text. -/
def answeringService :
    CreateAnswer.RetrieveAndGenerateInput → Except GoError CreateAnswer.RetrieveAndGenerateOutput :=
  fun _ => .ok ⟨some ⟨some "営業時間は9時から18時です。"⟩⟩

/-- A retrieval service whose response carries an empty generated text. -/
def blankAnsweringService :
    CreateAnswer.RetrieveAndGenerateInput → Except GoError CreateAnswer.RetrieveAndGenerateOutput :=
  fun _ => .ok ⟨some ⟨some ""⟩⟩

/-- A retrieval service that is throttled. -/
def failingAnsweringService :
    CreateAnswer.RetrieveAndGenerateInput → Except GoError CreateAnswer.RetrieveAndGenerateOutput :=
  fun _ => .error (.new "ThrottlingException")

/-- A generative-text service that always replies with the given text. -/
def replying (text : String) : InvokeModelInput → InvokeModelResult :=
  fun _ => .reply ⟨[⟨text⟩]⟩

/-! ## Facts about the string helpers -/

section Strings

theorem trimLeft_append_of_spaces (pre l : List Char)
    (h : ∀ c ∈ pre, isSpace c = true) : trimLeft (pre ++ l) = trimLeft l := by
  induction pre with
  | nil => rfl
  | cons a as ih =>
    have ha : isSpace a = true := h a (List.mem_cons_self a as)
    have has : ∀ c ∈ as, isSpace c = true := fun c hc => h c (List.mem_cons_of_mem a hc)
    simp [trimLeft, ha, ih has]

theorem trimLeft_cons_of_not_space (a : Char) (l : List Char) (h : isSpace a = false) :
    trimLeft (a :: l) = a :: l := by
  simp [trimLeft, h]

theorem trimSpace_padded (pre post l : List Char)
    (hpre : ∀ c ∈ pre, isSpace c = true) (hpost : ∀ c ∈ post, isSpace c = true)
    (hl : isTrimmed l = true) :
    trimSpace ⟨pre ++ l ++ post⟩ = ⟨l⟩ := by
  obtain ⟨a, m, rfl⟩ : ∃ a m, l = a :: m := by
    cases l with
    | nil => simp [isTrimmed] at hl
    | cons a m => exact ⟨a, m, rfl⟩
  obtain ⟨z, hz⟩ : ∃ z, (a :: m).getLast? = some z := by
    cases hlast : (a :: m).getLast? with
    | none => simp at hlast
    | some z => exact ⟨z, rfl⟩
  have hspaces : isSpace a = false ∧ isSpace z = false := by
    simpa [isTrimmed, hz] using hl
  obtain ⟨k, hk⟩ : ∃ k, (a :: m).reverse = z :: k := by
    have h1 : (a :: m).reverse.head? = some z := by
      rw [List.head?_reverse]; exact hz
    cases hrev : (a :: m).reverse with
    | nil => rw [hrev] at h1; simp at h1
    | cons y k =>
      rw [hrev] at h1
      simp only [List.head?_cons, Option.some.injEq] at h1
      exact ⟨k, by rw [h1]⟩
  have hpostr : ∀ c ∈ post.reverse, isSpace c = true := fun c hc =>
    hpost c (List.mem_reverse.mp hc)
  have step1 : trimLeft (pre ++ (a :: m) ++ post) = a :: m ++ post := by
    rw [List.append_assoc, trimLeft_append_of_spaces pre _ hpre]
    exact trimLeft_cons_of_not_space a _ hspaces.1
  have step2 : trimLeft (a :: m ++ post).reverse = (a :: m).reverse := by
    rw [List.reverse_append, trimLeft_append_of_spaces _ _ hpostr, hk]
    exact trimLeft_cons_of_not_space z _ hspaces.2
  show String.mk (trimLeft (trimLeft (pre ++ (a :: m) ++ post)).reverse).reverse = ⟨a :: m⟩
  rw [step1, step2, List.reverse_reverse]

theorem trimLeft_eq_dropWhile (l : List Char) : trimLeft l = l.dropWhile isSpace := by
  induction l with
  | nil => rfl
  | cons c cs ih =>
    by_cases h : isSpace c = true
    · simp [trimLeft, List.dropWhile, h, ih]
    · simp [trimLeft, List.dropWhile, h]

theorem matchesAt_iff_prefix (s sub : List Char) : matchesAt s sub = true ↔ sub <+: s := by
  induction s generalizing sub with
  | nil => cases sub <;> simp [matchesAt]
  | cons c cs ih =>
    cases sub with
    | nil => simp [matchesAt]
    | cons p ps =>
      simp only [matchesAt, Bool.and_eq_true, decide_eq_true_eq, ih, List.cons_prefix_cons]
      exact ⟨fun h => ⟨h.1.symm, h.2⟩, fun h => ⟨h.1.symm, h.2⟩⟩

theorem containsChars_iff_infix (s sub : List Char) :
    containsChars s sub = true ↔ sub <:+: s := by
  induction s with
  | nil =>
    simp only [containsChars, matchesAt_iff_prefix, List.prefix_nil, List.infix_nil]
  | cons c cs ih =>
    simp only [containsChars, Bool.or_eq_true, matchesAt_iff_prefix, ih, List.infix_cons_iff]

theorem equalFold_examples :
    equalFold "reviewText" "ReviewText" = true ∧ equalFold "reviewText" "REVIEWTEXT" = true
      ∧ equalFold "category" "Category" = true ∧ equalFold "id" "ID" = true
      ∧ equalFold "reviewText" "review_text" = false
      ∧ equalFold "category" "categories" = false := by
  decide

theorem unmarshalMap_matches_up_to_case :
    (JudgeCategory.unmarshalMap capitalisedItem ["Category", "id", "ReviewText"]).reviewText
        = "配送が遅いです"
      ∧ (CreateAnswer.unmarshalMap capitalisedItem ["Category", "id", "ReviewText"]).reviewText
        = "配送が遅いです"
      ∧ (CreateAnswer.unmarshalMap capitalisedItem ["Category", "id", "ReviewText"]).category
        = "ネガティブな感想" := by
  decide

theorem unmarshalMap_last_attribute_wins :
    (JudgeCategory.unmarshalMap shadowedItem ["id", "reviewText", "REVIEWTEXT"]).reviewText = ""
      ∧ (JudgeCategory.unmarshalMap shadowedItem ["REVIEWTEXT", "id", "reviewText"]).reviewText
        = "配送が遅いです"
      ∧ (CreateAnswer.unmarshalMap shadowedItem ["id", "reviewText", "REVIEWTEXT"]).reviewText = ""
      ∧ (CreateAnswer.unmarshalMap shadowedItem ["REVIEWTEXT", "id", "reviewText"]).reviewText
        = "配送が遅いです" := by
  decide

theorem categoryNames_trimmed : ∀ name ∈ categoryNames, isTrimmed name.data = true := by
  decide

end Strings

namespace JudgeCategory

theorem isCategory_iff (category : String) :
    isCategory category = true ↔ category ∈ categoryNames := by
  simp [isCategory]

theorem firstContained_eq_find (category : String) (order : List (String × String)) :
    firstContained category order
      = (order.map Prod.fst).find? (fun cat => contains category cat) := by
  induction order with
  | nil => rfl
  | cons e rest ih =>
    by_cases h : contains category e.1 = true
    · simp [firstContained, h]
    · simp [firstContained, h, ih]

theorem firstContained_some {category cat : String} {order : List (String × String)}
    (h : firstContained category order = some cat) :
    cat ∈ order.map Prod.fst ∧ contains category cat = true := by
  rw [firstContained_eq_find] at h
  exact ⟨List.mem_of_find?_eq_some h, by simpa using List.find?_some h⟩

theorem firstContained_none {category : String} {order : List (String × String)}
    (h : ∀ cat ∈ order.map Prod.fst, contains category cat = false) :
    firstContained category order = none := by
  rw [firstContained_eq_find, List.find?_eq_none]
  intro cat hcat
  simp [h cat hcat]

theorem firstContained_isSome {category cat : String} {order : List (String × String)}
    (hmem : cat ∈ order.map Prod.fst) (hc : contains category cat = true) :
    ∃ r, firstContained category order = some r := by
  cases hf : firstContained category order with
  | some r => exact ⟨r, rfl⟩
  | none =>
    rw [firstContained_eq_find, List.find?_eq_none] at hf
    exact absurd hc (by simpa using hf cat hmem)

theorem names_of_perm {order : List (String × String)} (h : order.Perm categories) :
    ∀ cat, cat ∈ order.map Prod.fst ↔ cat ∈ categoryNames := by
  intro cat
  exact (h.map Prod.fst).mem_iff

/-! ### The classifier's reply parsing -/

/-- C3: a reply whose first content text is a known category name, optionally
padded with white space, is answered with exactly that name.  The order of the
substring loop is an arbitrary list here: that tier is never reached. -/
theorem exact_category_reply_returned
    (bedrock : InvokeModelInput → InvokeModelResult)
    (promptOrder matchOrder : List (String × String)) (text name pre post : String)
    (rest : List ContentBlock)
    (hname : name ∈ categoryNames)
    (hpre : ∀ c ∈ pre.data, isSpace c = true) (hpost : ∀ c ∈ post.data, isSpace c = true)
    (hreply : bedrock (invokeModelInput promptOrder text)
      = .reply ⟨⟨pre ++ name ++ post⟩ :: rest⟩) :
    classifyInquiryWithBedrock bedrock promptOrder matchOrder text = .ok name := by
  have hdata : pre ++ name ++ post = ⟨pre.data ++ name.data ++ post.data⟩ :=
    String.ext (by simp [String.data_append])
  have htrim : trimSpace (pre ++ name ++ post) = name := by
    rw [hdata]
    exact trimSpace_padded pre.data post.data name.data hpre hpost
      (categoryNames_trimmed name hname)
  have hcat : isCategory name = true := (isCategory_iff name).mpr hname
  simp only [classifyInquiryWithBedrock, hreply, htrim, hcat, if_true]

theorem exact_category_reply_returned_witness :
    classifyInquiryWithBedrock
      (fun _ => .reply ⟨[⟨" \tネガティブな感想\n"⟩, ⟨"質問"⟩]⟩)
      categories [] "届いた商品が壊れていました" = .ok "ネガティブな感想" :=
  exact_category_reply_returned _ categories [] "届いた商品が壊れていました"
    "ネガティブな感想" " \t" "\n" [⟨"質問"⟩] (by decide) (by decide) (by decide) rfl

/-- C4: when the reply has no content element, or its trimmed first text neither
equals nor contains any of the five category names, the classifier returns the
catch-all その他 and no error, whatever the iteration order. -/
theorem unmatched_reply_gives_catch_all
    (bedrock : InvokeModelInput → InvokeModelResult)
    (promptOrder matchOrder : List (String × String)) (text : String)
    (body : BedrockResponseBody)
    (horder : matchOrder.Perm categories)
    (hreply : bedrock (invokeModelInput promptOrder text) = .reply body)
    (hnone : ∀ first ∈ body.content.head?,
      trimSpace first.text ∉ categoryNames
        ∧ ∀ name ∈ categoryNames, contains (trimSpace first.text) name = false) :
    classifyInquiryWithBedrock bedrock promptOrder matchOrder text = .ok "その他" := by
  obtain ⟨content⟩ := body
  cases content with
  | nil => simp only [classifyInquiryWithBedrock, hreply]
  | cons first rest =>
    obtain ⟨hne, hsub⟩ := hnone first (by simp)
    have hcat : isCategory (trimSpace first.text) = false := by
      rw [Bool.eq_false_iff]; exact fun h => hne ((isCategory_iff _).mp h)
    have hfirst : firstContained (trimSpace first.text) matchOrder = none :=
      firstContained_none fun cat hc => hsub cat ((names_of_perm horder cat).mp hc)
    simp [classifyInquiryWithBedrock, hreply, hcat, hfirst]

theorem unmatched_reply_gives_catch_all_witness :
    classifyInquiryWithBedrock (fun _ => .reply ⟨[⟨"わかりません"⟩]⟩)
        categories categories.reverse "こんにちは" = .ok "その他"
      ∧ classifyInquiryWithBedrock (fun _ => .reply ⟨[]⟩)
        categories categories.reverse "こんにちは" = .ok "その他" :=
  ⟨unmatched_reply_gives_catch_all _ categories categories.reverse "こんにちは"
      ⟨[⟨"わかりません"⟩]⟩ (List.reverse_perm _) rfl (by decide),
    unmatched_reply_gives_catch_all _ categories categories.reverse "こんにちは"
      ⟨[]⟩ (List.reverse_perm _) rfl (by decide)⟩

/-- C2: when the trimmed reply is not itself a category name but contains one,
the classifier returns, under every iteration order, a category name that
occurs in the reply (the one contained, when only one is); it returns その他 only
if その他 itself occurs in the reply, never by falling through to the default. -/
theorem substring_reply_returns_contained_category
    (bedrock : InvokeModelInput → InvokeModelResult)
    (promptOrder matchOrder : List (String × String)) (text : String)
    (first : ContentBlock) (rest : List ContentBlock) (cat : String)
    (horder : matchOrder.Perm categories)
    (hreply : bedrock (invokeModelInput promptOrder text) = .reply ⟨first :: rest⟩)
    (hne : trimSpace first.text ∉ categoryNames)
    (hcat : cat ∈ categoryNames)
    (hsub : contains (trimSpace first.text) cat = true) :
    ∃ r, classifyInquiryWithBedrock bedrock promptOrder matchOrder text = .ok r
      ∧ r ∈ categoryNames
      ∧ contains (trimSpace first.text) r = true
      ∧ ((∀ d ∈ categoryNames, contains (trimSpace first.text) d = true → d = cat) → r = cat)
      ∧ (contains (trimSpace first.text) "その他" = false → r ≠ "その他") := by
  have hno : isCategory (trimSpace first.text) = false := by
    rw [Bool.eq_false_iff]; exact fun h => hne ((isCategory_iff _).mp h)
  obtain ⟨r, hr⟩ := firstContained_isSome ((names_of_perm horder cat).mpr hcat) hsub
  obtain ⟨hmem, hcont⟩ := firstContained_some hr
  have hrn : r ∈ categoryNames := (names_of_perm horder r).mp hmem
  refine ⟨r, ?_, hrn, hcont, fun honly => honly r hrn hcont, ?_⟩
  · simp [classifyInquiryWithBedrock, hreply, hno, hr]
  · intro hother heq
    rw [heq, hother] at hcont
    exact Bool.false_ne_true hcont

theorem substring_reply_returns_contained_category_witness :
    ∃ r, classifyInquiryWithBedrock
        (fun _ => .reply ⟨[⟨"このお問い合わせは「質問」に分類されます"⟩]⟩)
        categories categories.reverse "営業時間を教えてください" = .ok r
      ∧ r ∈ categoryNames
      ∧ contains (trimSpace "このお問い合わせは「質問」に分類されます") r = true
      ∧ ((∀ d ∈ categoryNames,
            contains (trimSpace "このお問い合わせは「質問」に分類されます") d = true → d = "質問")
          → r = "質問")
      ∧ (contains (trimSpace "このお問い合わせは「質問」に分類されます") "その他" = false
          → r ≠ "その他") :=
  substring_reply_returns_contained_category _ categories categories.reverse
    "営業時間を教えてください" ⟨"このお問い合わせは「質問」に分類されます"⟩ [] "質問"
    (List.reverse_perm _) rfl (by decide) (by decide) (by decide)

/-- C10: when the trimmed reply is not a category name and contains two
distinct category names, there are two iteration orders of the category set
under which the classifier returns different categories, each the first
contained name of its order. -/
theorem substring_match_depends_on_order
    (bedrock : InvokeModelInput → InvokeModelResult)
    (promptOrder : List (String × String)) (text : String)
    (first : ContentBlock) (rest : List ContentBlock) (a b : String)
    (hreply : bedrock (invokeModelInput promptOrder text) = .reply ⟨first :: rest⟩)
    (hne : trimSpace first.text ∉ categoryNames)
    (ha : a ∈ categoryNames) (hb : b ∈ categoryNames) (hab : a ≠ b)
    (hca : contains (trimSpace first.text) a = true)
    (hcb : contains (trimSpace first.text) b = true) :
    ∃ o₁ o₂ r₁ r₂, o₁.Perm categories ∧ o₂.Perm categories
      ∧ classifyInquiryWithBedrock bedrock promptOrder o₁ text = .ok r₁
      ∧ classifyInquiryWithBedrock bedrock promptOrder o₂ text = .ok r₂
      ∧ r₁ ≠ r₂
      ∧ (o₁.map Prod.fst).find? (fun cat => contains (trimSpace first.text) cat) = some r₁
      ∧ (o₂.map Prod.fst).find? (fun cat => contains (trimSpace first.text) cat) = some r₂ := by
  have hno : isCategory (trimSpace first.text) = false := by
    rw [Bool.eq_false_iff]; exact fun h => hne ((isCategory_iff _).mp h)
  obtain ⟨ea, hea, rfl⟩ := List.mem_map.mp ha
  obtain ⟨eb, heb, rfl⟩ := List.mem_map.mp hb
  have key : ∀ e ∈ categories, contains (trimSpace first.text) e.1 = true →
      ∃ o : List (String × String), o.Perm categories
        ∧ classifyInquiryWithBedrock bedrock promptOrder o text = .ok e.1
        ∧ (o.map Prod.fst).find?
            (fun cat => contains (trimSpace first.text) cat) = some e.1 := by
    intro e he hc
    obtain ⟨tl, htl⟩ : ∃ tl, categories.Perm (e :: tl) := ⟨_, List.perm_cons_erase he⟩
    have hf : firstContained (trimSpace first.text) (e :: tl) = some e.1 := by
      simp [firstContained, hc]
    refine ⟨e :: tl, htl.symm, ?_, ?_⟩
    · simp [classifyInquiryWithBedrock, hreply, hno, hf]
    · rw [← firstContained_eq_find]; exact hf
  obtain ⟨o₁, p1, c1, f1⟩ := key ea hea hca
  obtain ⟨o₂, p2, c2, f2⟩ := key eb heb hcb
  exact ⟨o₁, o₂, ea.1, eb.1, p1, p2, c1, c2, hab, f1, f2⟩

theorem substring_match_depends_on_order_witness :
    ∃ o₁ o₂ r₁ r₂, o₁.Perm categories ∧ o₂.Perm categories
      ∧ classifyInquiryWithBedrock (fun _ => .reply ⟨[⟨"質問と改善要望"⟩]⟩) categories o₁
          "使い方がわからないので改善してほしい" = .ok r₁
      ∧ classifyInquiryWithBedrock (fun _ => .reply ⟨[⟨"質問と改善要望"⟩]⟩) categories o₂
          "使い方がわからないので改善してほしい" = .ok r₂
      ∧ r₁ ≠ r₂
      ∧ (o₁.map Prod.fst).find? (fun cat => contains (trimSpace "質問と改善要望") cat) = some r₁
      ∧ (o₂.map Prod.fst).find? (fun cat => contains (trimSpace "質問と改善要望") cat) = some r₂ :=
  substring_match_depends_on_order _ categories "使い方がわからないので改善してほしい"
    ⟨"質問と改善要望"⟩ [] "質問" "改善要望" rfl (by decide) (by decide) (by decide)
    (by decide) (by decide) (by decide)

end JudgeCategory

/-! ## Handler-level facts -/

namespace JudgeCategory

theorem classify_reply_mem (bedrock : InvokeModelInput → InvokeModelResult)
    (promptOrder matchOrder : List (String × String)) (text : String)
    (body : BedrockResponseBody)
    (horder : matchOrder.Perm categories)
    (hreply : bedrock (invokeModelInput promptOrder text) = .reply body) :
    ∃ category ∈ categoryNames,
      classifyInquiryWithBedrock bedrock promptOrder matchOrder text = .ok category := by
  obtain ⟨content⟩ := body
  cases content with
  | nil => exact ⟨"その他", by decide, by simp only [classifyInquiryWithBedrock, hreply]⟩
  | cons first rest =>
    by_cases hcat : isCategory (trimSpace first.text) = true
    · exact ⟨_, (isCategory_iff _).mp hcat,
        by simp only [classifyInquiryWithBedrock, hreply, hcat, if_true]⟩
    · cases hf : firstContained (trimSpace first.text) matchOrder with
      | none =>
        exact ⟨"その他", by decide, by simp [classifyInquiryWithBedrock, hreply, hcat, hf]⟩
      | some cat =>
        exact ⟨cat, (names_of_perm horder cat).mp (firstContained_some hf).1,
          by simp [classifyInquiryWithBedrock, hreply, hcat, hf]⟩

theorem classify_reply_ok (bedrock : InvokeModelInput → InvokeModelResult)
    (promptOrder matchOrder : List (String × String)) (text : String)
    (body : BedrockResponseBody)
    (hreply : bedrock (invokeModelInput promptOrder text) = .reply body) :
    ∃ category, classifyInquiryWithBedrock bedrock promptOrder matchOrder text = .ok category := by
  obtain ⟨content⟩ := body
  cases content with
  | nil => exact ⟨"その他", by simp only [classifyInquiryWithBedrock, hreply]⟩
  | cons first rest =>
    by_cases hcat : isCategory (trimSpace first.text) = true
    · exact ⟨trimSpace first.text,
        by simp only [classifyInquiryWithBedrock, hreply, hcat, if_true]⟩
    · cases hf : firstContained (trimSpace first.text) matchOrder with
      | none => exact ⟨"その他", by simp [classifyInquiryWithBedrock, hreply, hcat, hf]⟩
      | some cat => exact ⟨cat, by simp [classifyInquiryWithBedrock, hreply, hcat, hf]⟩

/-- C1: for a non-empty identifier whose record has non-empty review text, and
any reply body of the generative-text service, the category the handler sends to
the store is one of the five category names under every iteration order; when
the write succeeds that same name is returned and is the stored category. -/
theorem handler_category_is_fixed_name
    (cfg : Config) (db : DynamoDB) (bedrock : InvokeModelInput → InvokeModelResult)
    (promptOrder matchOrder : List (String × String)) (event : InquiryEvent)
    (attrs : Item) (body : BedrockResponseBody)
    (hid : event.id ≠ "") (hget : db.getItemErr = none)
    (hrec : db.table event.id = some attrs) (hdec : db.unmarshalErr = none)
    (htext : (unmarshalMap attrs db.decodeOrder).reviewText ≠ "")
    (horder : matchOrder.Perm categories)
    (hreply : bedrock (invokeModelInput promptOrder (unmarshalMap attrs db.decodeOrder).reviewText)
      = .reply body) :
    ∃ category ∈ categoryNames,
      (handler cfg db bedrock promptOrder matchOrder event).calls
          = [ .getItem cfg.inquiryTable event.id,
              .invokeModel (invokeModelInput promptOrder (unmarshalMap attrs db.decodeOrder).reviewText),
              .updateItem cfg.inquiryTable event.id
                [("category", category), ("status", "categorized")] ]
        ∧ (db.updateItemErr = none →
            (handler cfg db bedrock promptOrder matchOrder event).result
                = .ok [("inquiry_id", event.id), ("category", category), ("status", "success")]
              ∧ ((handler cfg db bedrock promptOrder matchOrder event).table event.id).bind
                  (fun item => item "category") = some category) := by
  obtain ⟨category, hmem, hclass⟩ :=
    classify_reply_mem bedrock promptOrder matchOrder _ body horder hreply
  refine ⟨category, hmem, ?_, ?_⟩
  · cases hput : db.updateItemErr <;>
      simp [handler, hid, hget, hrec, hdec, htext, hclass, hput]
  · intro hput
    simp [handler, hid, hget, hrec, hdec, htext, hclass, hput, updateItem, setAttributes]

theorem handler_category_is_fixed_name_witness :
    (∃ category ∈ categoryNames,
      (handler sampleConfig sampleDb (replying "たぶん質問です")
          categories categories.reverse ⟨"inq-1"⟩).calls
          = [ .getItem sampleConfig.inquiryTable "inq-1",
              .invokeModel (invokeModelInput categories
                (unmarshalMap sampleItem sampleDb.decodeOrder).reviewText),
              .updateItem sampleConfig.inquiryTable "inq-1"
                [("category", category), ("status", "categorized")] ]
        ∧ (sampleDb.updateItemErr = none →
            (handler sampleConfig sampleDb (replying "たぶん質問です")
                categories categories.reverse ⟨"inq-1"⟩).result
                = .ok [("inquiry_id", "inq-1"), ("category", category), ("status", "success")]
              ∧ ((handler sampleConfig sampleDb (replying "たぶん質問です")
                  categories categories.reverse ⟨"inq-1"⟩).table "inq-1").bind
                  (fun item => item "category") = some category))
      ∧ (∃ category ∈ categoryNames,
      (handler sampleConfig capitalisedDb (replying "不満")
          categories categories.reverse ⟨"inq-3"⟩).calls
          = [ .getItem sampleConfig.inquiryTable "inq-3",
              .invokeModel (invokeModelInput categories
                (unmarshalMap capitalisedItem capitalisedDb.decodeOrder).reviewText),
              .updateItem sampleConfig.inquiryTable "inq-3"
                [("category", category), ("status", "categorized")] ]
        ∧ (capitalisedDb.updateItemErr = none →
            (handler sampleConfig capitalisedDb (replying "不満")
                categories categories.reverse ⟨"inq-3"⟩).result
                = .ok [("inquiry_id", "inq-3"), ("category", category), ("status", "success")]
              ∧ ((handler sampleConfig capitalisedDb (replying "不満")
                  categories categories.reverse ⟨"inq-3"⟩).table "inq-3").bind
                  (fun item => item "category") = some category)) :=
  ⟨handler_category_is_fixed_name sampleConfig sampleDb (replying "たぶん質問です") categories
      categories.reverse ⟨"inq-1"⟩ sampleItem ⟨[⟨"たぶん質問です"⟩]⟩ (by decide) rfl rfl rfl
      (by decide) (List.reverse_perm _) rfl,
    handler_category_is_fixed_name sampleConfig capitalisedDb (replying "不満") categories
      categories.reverse ⟨"inq-3"⟩ capitalisedItem ⟨[⟨"不満"⟩]⟩ (by decide) rfl rfl rfl
      (by decide) (List.reverse_perm _) rfl⟩

end JudgeCategory

namespace CreateAnswer

/-- C5: for a non-empty identifier whose record has non-empty review text, when
answer generation fails and the write succeeds, the handler reports success,
and the stored record has status "answered" and the canned apology, which is not
the empty string, as its answer. -/
theorem generation_failure_persists_fallback
    (cfg : Config) (db : DynamoDB)
    (bedrock : RetrieveAndGenerateInput → Except GoError RetrieveAndGenerateOutput)
    (event : InquiryEvent) (attrs : Item) (err : GoError)
    (hid : event.id ≠ "") (hget : db.getItemErr = none)
    (hrec : db.table event.id = some attrs) (hdec : db.unmarshalErr = none)
    (htext : (unmarshalMap attrs db.decodeOrder).reviewText ≠ "")
    (hgen : generateAnswerWithBedrockKB cfg bedrock (unmarshalMap attrs db.decodeOrder).reviewText
      (unmarshalMap attrs db.decodeOrder).category = .error err)
    (hput : db.updateItemErr = none) :
    (handler cfg db bedrock event).result
        = .ok [("inquiry_id", event.id), ("answer", fallbackAnswer), ("status", "success")]
      ∧ (∃ item, (handler cfg db bedrock event).table event.id = some item
          ∧ item "status" = some "answered" ∧ item "answer" = some fallbackAnswer)
      ∧ fallbackAnswer ≠ "" := by
  refine ⟨?_, ?_, by decide⟩
  · simp [handler, hid, hget, hrec, hdec, htext, hgen, hput]
  · simp [handler, hid, hget, hrec, hdec, htext, hgen, hput, updateItem, setAttributes]

theorem generation_failure_persists_fallback_witness :
    ((handler sampleConfig sampleDb failingAnsweringService ⟨"inq-1"⟩).result
        = .ok [("inquiry_id", "inq-1"), ("answer", fallbackAnswer), ("status", "success")]
      ∧ (∃ item, (handler sampleConfig sampleDb failingAnsweringService ⟨"inq-1"⟩).table "inq-1"
            = some item
          ∧ item "status" = some "answered" ∧ item "answer" = some fallbackAnswer)
      ∧ fallbackAnswer ≠ "")
    ∧ ((handler sampleConfig capitalisedDb failingOnComplaints ⟨"inq-3"⟩).result
        = .ok [("inquiry_id", "inq-3"), ("answer", fallbackAnswer), ("status", "success")]
      ∧ (∃ item, (handler sampleConfig capitalisedDb failingOnComplaints ⟨"inq-3"⟩).table "inq-3"
            = some item
          ∧ item "status" = some "answered" ∧ item "answer" = some fallbackAnswer)
      ∧ fallbackAnswer ≠ "") :=
  ⟨generation_failure_persists_fallback sampleConfig sampleDb failingAnsweringService ⟨"inq-1"⟩
      sampleItem
      (.wrap "failed to retrieve and generate from bedrock" (.new "ThrottlingException"))
      (by decide) rfl rfl rfl (by decide) rfl rfl,
    generation_failure_persists_fallback sampleConfig capitalisedDb failingOnComplaints
      ⟨"inq-3"⟩ capitalisedItem
      (.wrap "failed to retrieve and generate from bedrock" (.new "ThrottlingException"))
      (by decide) rfl rfl rfl (by decide) rfl rfl⟩

/-- C6, as the claim states it, fails: a successful response whose generated text
is present but empty is stored and returned as the empty answer, not replaced by
the canned message. -/
theorem empty_generated_text_is_persisted :
    blankAnsweringService (retrieveAndGenerateInput sampleConfig
        (unmarshalMap sampleItem sampleOrder).reviewText (unmarshalMap sampleItem sampleOrder).category)
        = .ok ⟨some ⟨some ""⟩⟩
      ∧ (handler sampleConfig sampleDb blankAnsweringService ⟨"inq-1"⟩).result
        = .ok [("inquiry_id", "inq-1"), ("answer", ""), ("status", "success")]
      ∧ ((handler sampleConfig sampleDb blankAnsweringService ⟨"inq-1"⟩).table "inq-1").bind
          (fun item => item "answer") = some ""
      ∧ "" ≠ fallbackAnswer := by
  refine ⟨rfl, rfl, rfl, by decide⟩

/-- C6 (amended): for every outcome of the retrieval service the handler stores
and returns one answer: the generated text whenever the response carries one
(empty or not), and the canned message on a service error, a response with no
output, or an output with no text.  The stored answer is empty only when the
service itself returned an empty generated text. -/
theorem persisted_answer_by_outcome
    (cfg : Config) (db : DynamoDB)
    (bedrock : RetrieveAndGenerateInput → Except GoError RetrieveAndGenerateOutput)
    (event : InquiryEvent) (attrs : Item)
    (hid : event.id ≠ "") (hget : db.getItemErr = none)
    (hrec : db.table event.id = some attrs) (hdec : db.unmarshalErr = none)
    (htext : (unmarshalMap attrs db.decodeOrder).reviewText ≠ "")
    (hput : db.updateItemErr = none) :
    ∃ answer,
      (handler cfg db bedrock event).result
          = .ok [("inquiry_id", event.id), ("answer", answer), ("status", "success")]
        ∧ ((handler cfg db bedrock event).table event.id).bind
            (fun item => item "answer") = some answer
        ∧ (∀ text, bedrock (retrieveAndGenerateInput cfg (unmarshalMap attrs db.decodeOrder).reviewText
              (unmarshalMap attrs db.decodeOrder).category) = .ok ⟨some ⟨some text⟩⟩ → answer = text)
        ∧ ((∃ err, bedrock (retrieveAndGenerateInput cfg (unmarshalMap attrs db.decodeOrder).reviewText
                (unmarshalMap attrs db.decodeOrder).category) = .error err)
            ∨ bedrock (retrieveAndGenerateInput cfg (unmarshalMap attrs db.decodeOrder).reviewText
                (unmarshalMap attrs db.decodeOrder).category) = .ok ⟨none⟩
            ∨ bedrock (retrieveAndGenerateInput cfg (unmarshalMap attrs db.decodeOrder).reviewText
                (unmarshalMap attrs db.decodeOrder).category) = .ok ⟨some ⟨none⟩⟩
            → answer = fallbackAnswer)
        ∧ (answer = "" →
            bedrock (retrieveAndGenerateInput cfg (unmarshalMap attrs db.decodeOrder).reviewText
              (unmarshalMap attrs db.decodeOrder).category) = .ok ⟨some ⟨some ""⟩⟩) := by
  have hfb : fallbackAnswer ≠ "" := by decide
  cases hb : bedrock (retrieveAndGenerateInput cfg (unmarshalMap attrs db.decodeOrder).reviewText
      (unmarshalMap attrs db.decodeOrder).category) with
  | error e =>
    refine ⟨fallbackAnswer, ?_, ?_, ?_, ?_, ?_⟩
    · simp [handler, generateAnswerWithBedrockKB, hid, hget, hrec, hdec, htext, hput, hb]
    · simp [handler, generateAnswerWithBedrockKB, hid, hget, hrec, hdec, htext, hput, hb,
        updateItem, setAttributes]
    · intro text h; cases h
    · intro _; rfl
    · intro h; exact absurd h hfb
  | ok output =>
    obtain ⟨o⟩ := output
    cases o with
    | none =>
      refine ⟨fallbackAnswer, ?_, ?_, ?_, ?_, ?_⟩
      · simp [handler, generateAnswerWithBedrockKB, hid, hget, hrec, hdec, htext, hput, hb]
      · simp [handler, generateAnswerWithBedrockKB, hid, hget, hrec, hdec, htext, hput, hb,
          updateItem, setAttributes]
      · intro text h; simp at h
      · intro _; rfl
      · intro h; exact absurd h hfb
    | some out =>
      obtain ⟨t⟩ := out
      cases t with
      | none =>
        refine ⟨fallbackAnswer, ?_, ?_, ?_, ?_, ?_⟩
        · simp [handler, generateAnswerWithBedrockKB, hid, hget, hrec, hdec, htext, hput, hb]
        · simp [handler, generateAnswerWithBedrockKB, hid, hget, hrec, hdec, htext, hput, hb,
            updateItem, setAttributes]
        · intro text h; simp at h
        · intro _; rfl
        · intro h; exact absurd h hfb
      | some text =>
        refine ⟨text, ?_, ?_, ?_, ?_, ?_⟩
        · simp [handler, generateAnswerWithBedrockKB, hid, hget, hrec, hdec, htext, hput, hb]
        · simp [handler, generateAnswerWithBedrockKB, hid, hget, hrec, hdec, htext, hput, hb,
            updateItem, setAttributes]
        · intro text2 h
          simpa using h
        · intro h
          rcases h with ⟨e, h⟩ | h | h <;> simp at h
        · intro h; rw [h]

theorem persisted_answer_by_outcome_witness :
    (∃ answer,
      (handler sampleConfig sampleDb answeringService ⟨"inq-1"⟩).result
          = .ok [("inquiry_id", "inq-1"), ("answer", answer), ("status", "success")]
        ∧ ((handler sampleConfig sampleDb answeringService ⟨"inq-1"⟩).table "inq-1").bind
            (fun item => item "answer") = some answer
        ∧ (∀ text, answeringService (retrieveAndGenerateInput sampleConfig
              (unmarshalMap sampleItem sampleDb.decodeOrder).reviewText
              (unmarshalMap sampleItem sampleDb.decodeOrder).category)
              = .ok ⟨some ⟨some text⟩⟩ → answer = text)
        ∧ ((∃ err, answeringService (retrieveAndGenerateInput sampleConfig
              (unmarshalMap sampleItem sampleDb.decodeOrder).reviewText
              (unmarshalMap sampleItem sampleDb.decodeOrder).category)
                = .error err)
            ∨ answeringService (retrieveAndGenerateInput sampleConfig
              (unmarshalMap sampleItem sampleDb.decodeOrder).reviewText
              (unmarshalMap sampleItem sampleDb.decodeOrder).category)
                = .ok ⟨none⟩
            ∨ answeringService (retrieveAndGenerateInput sampleConfig
              (unmarshalMap sampleItem sampleDb.decodeOrder).reviewText
              (unmarshalMap sampleItem sampleDb.decodeOrder).category)
                = .ok ⟨some ⟨none⟩⟩
            → answer = fallbackAnswer)
        ∧ (answer = "" →
            answeringService (retrieveAndGenerateInput sampleConfig
              (unmarshalMap sampleItem sampleDb.decodeOrder).reviewText
              (unmarshalMap sampleItem sampleDb.decodeOrder).category)
              = .ok ⟨some ⟨some ""⟩⟩))
    ∧ (∃ answer,
      (handler sampleConfig capitalisedDb failingOnComplaints ⟨"inq-3"⟩).result
          = .ok [("inquiry_id", "inq-3"), ("answer", answer), ("status", "success")]
        ∧ ((handler sampleConfig capitalisedDb failingOnComplaints ⟨"inq-3"⟩).table "inq-3").bind
            (fun item => item "answer") = some answer
        ∧ (∀ text, failingOnComplaints (retrieveAndGenerateInput sampleConfig
              (unmarshalMap capitalisedItem capitalisedDb.decodeOrder).reviewText
              (unmarshalMap capitalisedItem capitalisedDb.decodeOrder).category)
              = .ok ⟨some ⟨some text⟩⟩ → answer = text)
        ∧ ((∃ err, failingOnComplaints (retrieveAndGenerateInput sampleConfig
              (unmarshalMap capitalisedItem capitalisedDb.decodeOrder).reviewText
              (unmarshalMap capitalisedItem capitalisedDb.decodeOrder).category)
                = .error err)
            ∨ failingOnComplaints (retrieveAndGenerateInput sampleConfig
              (unmarshalMap capitalisedItem capitalisedDb.decodeOrder).reviewText
              (unmarshalMap capitalisedItem capitalisedDb.decodeOrder).category)
                = .ok ⟨none⟩
            ∨ failingOnComplaints (retrieveAndGenerateInput sampleConfig
              (unmarshalMap capitalisedItem capitalisedDb.decodeOrder).reviewText
              (unmarshalMap capitalisedItem capitalisedDb.decodeOrder).category)
                = .ok ⟨some ⟨none⟩⟩
            → answer = fallbackAnswer)
        ∧ (answer = "" →
            failingOnComplaints (retrieveAndGenerateInput sampleConfig
              (unmarshalMap capitalisedItem capitalisedDb.decodeOrder).reviewText
              (unmarshalMap capitalisedItem capitalisedDb.decodeOrder).category)
              = .ok ⟨some ⟨some ""⟩⟩)) :=
  ⟨persisted_answer_by_outcome sampleConfig sampleDb answeringService ⟨"inq-1"⟩ sampleItem
      (by decide) rfl rfl rfl (by decide) rfl,
    persisted_answer_by_outcome sampleConfig capitalisedDb failingOnComplaints ⟨"inq-3"⟩
      capitalisedItem (by decide) rfl rfl rfl (by decide) rfl⟩

end CreateAnswer

/-! ## Store failures, early exits and the write footprint -/

/-- C7: in either handler, once the read and the AI call have completed (for the
answer handler whatever the generation outcome), a failing write with error `e`
makes the invocation return no result map but an error that wraps `e`. -/
theorem write_failure_is_surfaced
    (cfg : Config) (db : DynamoDB) (event : InquiryEvent) (attrs : Item) (e : GoError)
    (hid : event.id ≠ "") (hget : db.getItemErr = none)
    (hrec : db.table event.id = some attrs) (hdec : db.unmarshalErr = none)
    (hput : db.updateItemErr = some e) :
    (∀ (bedrock : InvokeModelInput → InvokeModelResult)
        (promptOrder matchOrder : List (String × String)) (body : BedrockResponseBody),
        (JudgeCategory.unmarshalMap attrs db.decodeOrder).reviewText ≠ "" →
        bedrock (JudgeCategory.invokeModelInput promptOrder
          (JudgeCategory.unmarshalMap attrs db.decodeOrder).reviewText) = .reply body →
        ∃ err, (JudgeCategory.handler cfg db bedrock promptOrder matchOrder event).result
            = .error err ∧ err.unwrap = some e)
      ∧ (∀ bedrock : CreateAnswer.RetrieveAndGenerateInput →
          Except GoError CreateAnswer.RetrieveAndGenerateOutput,
        (CreateAnswer.unmarshalMap attrs db.decodeOrder).reviewText ≠ "" →
        ∃ err, (CreateAnswer.handler cfg db bedrock event).result = .error err
          ∧ err.unwrap = some e) := by
  constructor
  · intro bedrock promptOrder matchOrder body ht hreply
    obtain ⟨category, hclass⟩ :=
      JudgeCategory.classify_reply_ok bedrock promptOrder matchOrder _ body hreply
    exact ⟨.wrap "failed to update item in dynamodb" e,
      by simp [JudgeCategory.handler, hid, hget, hrec, hdec, ht, hclass, hput], rfl⟩
  · intro bedrock ht
    exact ⟨.wrap "failed to update item in dynamodb" e,
      by simp [CreateAnswer.handler, hid, hget, hrec, hdec, ht, hput], rfl⟩

theorem write_failure_is_surfaced_witness :
    (∃ err, (JudgeCategory.handler sampleConfig readOnlyDb (replying "質問") categories
            categories.reverse ⟨"inq-1"⟩).result = .error err
        ∧ err.unwrap = some (.new "ProvisionedThroughputExceededException"))
      ∧ (∃ err, (CreateAnswer.handler sampleConfig readOnlyDb answeringService ⟨"inq-1"⟩).result
            = .error err
          ∧ err.unwrap = some (.new "ProvisionedThroughputExceededException"))
      ∧ (∃ err, (CreateAnswer.handler sampleConfig readOnlyDb failingAnsweringService
            ⟨"inq-1"⟩).result = .error err
          ∧ err.unwrap = some (.new "ProvisionedThroughputExceededException"))
      ∧ (∃ err, (JudgeCategory.handler sampleConfig readOnlyUnshadowedDb (replying "質問")
            categories categories.reverse ⟨"inq-4"⟩).result = .error err
          ∧ err.unwrap = some (.new "ProvisionedThroughputExceededException"))
      ∧ (∃ err, (CreateAnswer.handler sampleConfig readOnlyUnshadowedDb answeringService
            ⟨"inq-4"⟩).result = .error err
          ∧ err.unwrap = some (.new "ProvisionedThroughputExceededException")) :=
  ⟨(write_failure_is_surfaced sampleConfig readOnlyDb ⟨"inq-1"⟩ sampleItem
      (.new "ProvisionedThroughputExceededException") (by decide) rfl rfl rfl rfl).1
      (replying "質問") categories categories.reverse ⟨[⟨"質問"⟩]⟩ (by decide) rfl,
    (write_failure_is_surfaced sampleConfig readOnlyDb ⟨"inq-1"⟩ sampleItem
      (.new "ProvisionedThroughputExceededException") (by decide) rfl rfl rfl rfl).2
      answeringService (by decide),
    (write_failure_is_surfaced sampleConfig readOnlyDb ⟨"inq-1"⟩ sampleItem
      (.new "ProvisionedThroughputExceededException") (by decide) rfl rfl rfl rfl).2
      failingAnsweringService (by decide),
    (write_failure_is_surfaced sampleConfig readOnlyUnshadowedDb ⟨"inq-4"⟩ shadowedItem
      (.new "ProvisionedThroughputExceededException") (by decide) rfl rfl rfl rfl).1
      (replying "質問") categories categories.reverse ⟨[⟨"質問"⟩]⟩ (by decide) rfl,
    (write_failure_is_surfaced sampleConfig readOnlyUnshadowedDb ⟨"inq-4"⟩ shadowedItem
      (.new "ProvisionedThroughputExceededException") (by decide) rfl rfl rfl rfl).2
      answeringService (by decide)⟩

/-- C8: for both handlers and every table, on an invocation that carries an
identifier and whose read completes: an identifier absent from the table gives
"inquiry not found", and a record read with an empty review text gives "no
review text found".  In both cases the only external call made is the read (no
AI call, no write) and the table is unchanged. -/
theorem missing_or_blank_record_stops_after_read
    (cfg : Config) (db : DynamoDB) (event : InquiryEvent)
    (hid : event.id ≠ "") (hget : db.getItemErr = none) :
    (db.table event.id = none →
        (∀ (bedrock : InvokeModelInput → InvokeModelResult)
            (promptOrder matchOrder : List (String × String)),
          JudgeCategory.handler cfg db bedrock promptOrder matchOrder event
            = ⟨.error (.new "inquiry not found"), db.table,
                [.getItem cfg.inquiryTable event.id]⟩)
        ∧ (∀ bedrock : CreateAnswer.RetrieveAndGenerateInput →
              Except GoError CreateAnswer.RetrieveAndGenerateOutput,
          CreateAnswer.handler cfg db bedrock event
            = ⟨.error (.new "inquiry not found"), db.table,
                [.getItem cfg.inquiryTable event.id]⟩))
      ∧ (∀ attrs : Item, db.table event.id = some attrs → db.unmarshalErr = none →
        ((JudgeCategory.unmarshalMap attrs db.decodeOrder).reviewText = "" →
          ∀ (bedrock : InvokeModelInput → InvokeModelResult)
            (promptOrder matchOrder : List (String × String)),
          JudgeCategory.handler cfg db bedrock promptOrder matchOrder event
            = ⟨.error (.new "no review text found"), db.table,
                [.getItem cfg.inquiryTable event.id]⟩)
        ∧ ((CreateAnswer.unmarshalMap attrs db.decodeOrder).reviewText = "" →
          ∀ bedrock : CreateAnswer.RetrieveAndGenerateInput →
              Except GoError CreateAnswer.RetrieveAndGenerateOutput,
          CreateAnswer.handler cfg db bedrock event
            = ⟨.error (.new "no review text found"), db.table,
                [.getItem cfg.inquiryTable event.id]⟩)) := by
  refine ⟨fun hnone => ⟨?_, ?_⟩, fun attrs hrec hdec => ⟨?_, ?_⟩⟩
  · intro bedrock promptOrder matchOrder
    simp [JudgeCategory.handler, hid, hget, hnone]
  · intro bedrock
    simp [CreateAnswer.handler, hid, hget, hnone]
  · intro ht bedrock promptOrder matchOrder
    simp [JudgeCategory.handler, hid, hget, hrec, hdec, ht]
  · intro ht bedrock
    simp [CreateAnswer.handler, hid, hget, hrec, hdec, ht]

theorem missing_or_blank_record_stops_after_read_witness :
    (JudgeCategory.handler sampleConfig sampleDb (replying "質問") categories categories
          ⟨"inq-404"⟩
        = ⟨.error (.new "inquiry not found"), sampleDb.table,
            [.getItem sampleConfig.inquiryTable "inq-404"]⟩
      ∧ CreateAnswer.handler sampleConfig sampleDb answeringService ⟨"inq-404"⟩
        = ⟨.error (.new "inquiry not found"), sampleDb.table,
            [.getItem sampleConfig.inquiryTable "inq-404"]⟩)
      ∧ (JudgeCategory.handler sampleConfig sampleDb (replying "質問") categories categories
          ⟨"inq-2"⟩
        = ⟨.error (.new "no review text found"), sampleDb.table,
            [.getItem sampleConfig.inquiryTable "inq-2"]⟩
      ∧ CreateAnswer.handler sampleConfig sampleDb answeringService ⟨"inq-2"⟩
        = ⟨.error (.new "no review text found"), sampleDb.table,
            [.getItem sampleConfig.inquiryTable "inq-2"]⟩)
      ∧ (JudgeCategory.handler sampleConfig shadowedDb (replying "質問") categories categories
          ⟨"inq-4"⟩
        = ⟨.error (.new "no review text found"), shadowedDb.table,
            [.getItem sampleConfig.inquiryTable "inq-4"]⟩
      ∧ CreateAnswer.handler sampleConfig shadowedDb answeringService ⟨"inq-4"⟩
        = ⟨.error (.new "no review text found"), shadowedDb.table,
            [.getItem sampleConfig.inquiryTable "inq-4"]⟩) :=
  ⟨⟨((missing_or_blank_record_stops_after_read sampleConfig sampleDb ⟨"inq-404"⟩
        (by decide) rfl).1 rfl).1 (replying "質問") categories categories,
    ((missing_or_blank_record_stops_after_read sampleConfig sampleDb ⟨"inq-404"⟩
        (by decide) rfl).1 rfl).2 answeringService⟩,
   ⟨((missing_or_blank_record_stops_after_read sampleConfig sampleDb ⟨"inq-2"⟩
        (by decide) rfl).2 blankItem rfl rfl).1 (by decide) (replying "質問") categories
        categories,
    ((missing_or_blank_record_stops_after_read sampleConfig sampleDb ⟨"inq-2"⟩
        (by decide) rfl).2 blankItem rfl rfl).2 (by decide) answeringService⟩,
   ⟨((missing_or_blank_record_stops_after_read sampleConfig shadowedDb ⟨"inq-4"⟩
        (by decide) rfl).2 shadowedItem rfl rfl).1 (by decide) (replying "質問") categories
        categories,
    ((missing_or_blank_record_stops_after_read sampleConfig shadowedDb ⟨"inq-4"⟩
        (by decide) rfl).2 shadowedItem rfl rfl).2 (by decide) answeringService⟩⟩

theorem updateItem_other (table : Table) (id key : String) (sets : List (String × String))
    (h : key ≠ id) : updateItem table id sets key = table key := by
  simp [updateItem, h]

theorem updateItem_same (table : Table) (id : String) (sets : List (String × String))
    (old : Item) (h : table id = some old) :
    updateItem table id sets id = some (setAttributes old sets) := by
  simp [updateItem, h]

theorem JudgeCategory.judge_handler_ok_inv
    (cfg : Config) (db : DynamoDB) (bedrock : InvokeModelInput → InvokeModelResult)
    (promptOrder matchOrder : List (String × String)) (event : InquiryEvent)
    (res : List (String × String))
    (h : (JudgeCategory.handler cfg db bedrock promptOrder matchOrder event).result = .ok res) :
    ∃ old category, db.table event.id = some old
      ∧ res = [("inquiry_id", event.id), ("category", category), ("status", "success")]
      ∧ (JudgeCategory.handler cfg db bedrock promptOrder matchOrder event).table
          = updateItem db.table event.id [("category", category), ("status", "categorized")] := by
  by_cases hid : event.id = ""
  · simp [JudgeCategory.handler, hid] at h
  cases hget : db.getItemErr with
  | some err => simp [JudgeCategory.handler, hid, hget] at h
  | none =>
  cases hrec : db.table event.id with
  | none => simp [JudgeCategory.handler, hid, hget, hrec] at h
  | some old =>
  cases hdec : db.unmarshalErr with
  | some err => simp [JudgeCategory.handler, hid, hget, hrec, hdec] at h
  | none =>
  by_cases htext : (JudgeCategory.unmarshalMap old db.decodeOrder).reviewText = ""
  · simp [JudgeCategory.handler, hid, hget, hrec, hdec, htext] at h
  cases hclass : JudgeCategory.classifyInquiryWithBedrock bedrock promptOrder matchOrder
      (JudgeCategory.unmarshalMap old db.decodeOrder).reviewText with
  | error err => simp [JudgeCategory.handler, hid, hget, hrec, hdec, htext, hclass] at h
  | ok category =>
  cases hput : db.updateItemErr with
  | some err => simp [JudgeCategory.handler, hid, hget, hrec, hdec, htext, hclass, hput] at h
  | none =>
    refine ⟨old, category, rfl, ?_, ?_⟩
    · simp [JudgeCategory.handler, hid, hget, hrec, hdec, htext, hclass, hput] at h
      exact h.symm
    · simp [JudgeCategory.handler, hid, hget, hrec, hdec, htext, hclass, hput]

theorem CreateAnswer.answer_handler_ok_inv
    (cfg : Config) (db : DynamoDB)
    (bedrock : CreateAnswer.RetrieveAndGenerateInput →
      Except GoError CreateAnswer.RetrieveAndGenerateOutput)
    (event : InquiryEvent) (res : List (String × String))
    (h : (CreateAnswer.handler cfg db bedrock event).result = .ok res) :
    ∃ old answer, db.table event.id = some old
      ∧ res = [("inquiry_id", event.id), ("answer", answer), ("status", "success")]
      ∧ (CreateAnswer.handler cfg db bedrock event).table
          = updateItem db.table event.id [("answer", answer), ("status", "answered")] := by
  by_cases hid : event.id = ""
  · simp [CreateAnswer.handler, hid] at h
  cases hget : db.getItemErr with
  | some err => simp [CreateAnswer.handler, hid, hget] at h
  | none =>
  cases hrec : db.table event.id with
  | none => simp [CreateAnswer.handler, hid, hget, hrec] at h
  | some old =>
  cases hdec : db.unmarshalErr with
  | some err => simp [CreateAnswer.handler, hid, hget, hrec, hdec] at h
  | none =>
  by_cases htext : (CreateAnswer.unmarshalMap old db.decodeOrder).reviewText = ""
  · simp [CreateAnswer.handler, hid, hget, hrec, hdec, htext] at h
  cases hput : db.updateItemErr with
  | some err => simp [CreateAnswer.handler, hid, hget, hrec, hdec, htext, hput] at h
  | none =>
  cases hgen : CreateAnswer.generateAnswerWithBedrockKB cfg bedrock
      (CreateAnswer.unmarshalMap old db.decodeOrder).reviewText (CreateAnswer.unmarshalMap old db.decodeOrder).category with
  | error err =>
    refine ⟨old, CreateAnswer.fallbackAnswer, rfl, ?_, ?_⟩
    · simp [CreateAnswer.handler, hid, hget, hrec, hdec, htext, hput, hgen] at h
      exact h.symm
    · simp [CreateAnswer.handler, hid, hget, hrec, hdec, htext, hput, hgen]
  | ok answer =>
    refine ⟨old, answer, rfl, ?_, ?_⟩
    · simp [CreateAnswer.handler, hid, hget, hrec, hdec, htext, hput, hgen] at h
      exact h.symm
    · simp [CreateAnswer.handler, hid, hget, hrec, hdec, htext, hput, hgen]

/-- C9: with the store a map from identifier to record, a successful classifier
invocation changes only the category and status attributes of the identified
record (status becomes "categorized"), and a successful answer invocation only
its answer and status attributes (status becomes "answered"); the review text,
the other handler's attribute, every further attribute and every other record
are left as they were. -/
theorem successful_invocation_footprint (cfg : Config) (db : DynamoDB) (event : InquiryEvent) :
    (∀ (bedrock : InvokeModelInput → InvokeModelResult)
        (promptOrder matchOrder : List (String × String)) (res : List (String × String)),
        (JudgeCategory.handler cfg db bedrock promptOrder matchOrder event).result = .ok res →
        (∀ key, key ≠ event.id →
            (JudgeCategory.handler cfg db bedrock promptOrder matchOrder event).table key
              = db.table key)
          ∧ ∃ old new category, db.table event.id = some old
              ∧ (JudgeCategory.handler cfg db bedrock promptOrder matchOrder event).table event.id
                  = some new
              ∧ res = [("inquiry_id", event.id), ("category", category), ("status", "success")]
              ∧ new "category" = some category ∧ new "status" = some "categorized"
              ∧ new "reviewText" = old "reviewText" ∧ new "answer" = old "answer"
              ∧ ∀ name, name ≠ "category" → name ≠ "status" → new name = old name)
      ∧ (∀ (bedrock : CreateAnswer.RetrieveAndGenerateInput →
            Except GoError CreateAnswer.RetrieveAndGenerateOutput)
          (res : List (String × String)),
        (CreateAnswer.handler cfg db bedrock event).result = .ok res →
        (∀ key, key ≠ event.id →
            (CreateAnswer.handler cfg db bedrock event).table key = db.table key)
          ∧ ∃ old new answer, db.table event.id = some old
              ∧ (CreateAnswer.handler cfg db bedrock event).table event.id = some new
              ∧ res = [("inquiry_id", event.id), ("answer", answer), ("status", "success")]
              ∧ new "answer" = some answer ∧ new "status" = some "answered"
              ∧ new "reviewText" = old "reviewText" ∧ new "category" = old "category"
              ∧ ∀ name, name ≠ "answer" → name ≠ "status" → new name = old name) := by
  constructor
  · intro bedrock promptOrder matchOrder res h
    obtain ⟨old, category, hold, hres, htable⟩ :=
      JudgeCategory.judge_handler_ok_inv cfg db bedrock promptOrder matchOrder event res h
    rw [htable]
    refine ⟨fun key hkey => updateItem_other _ _ _ _ hkey, old, _, category, hold,
      updateItem_same _ _ _ old hold, hres, ?_, ?_, ?_, ?_, ?_⟩
    · simp [setAttributes]
    · simp [setAttributes]
    · simp [setAttributes]
    · simp [setAttributes]
    · intro name h1 h2; simp [setAttributes, h1, h2]
  · intro bedrock res h
    obtain ⟨old, answer, hold, hres, htable⟩ :=
      CreateAnswer.answer_handler_ok_inv cfg db bedrock event res h
    rw [htable]
    refine ⟨fun key hkey => updateItem_other _ _ _ _ hkey, old, _, answer, hold,
      updateItem_same _ _ _ old hold, hres, ?_, ?_, ?_, ?_, ?_⟩
    · simp [setAttributes]
    · simp [setAttributes]
    · simp [setAttributes]
    · simp [setAttributes]
    · intro name h1 h2; simp [setAttributes, h1, h2]

theorem successful_invocation_footprint_witness :
    ((∀ key, key ≠ "inq-1" →
          (JudgeCategory.handler sampleConfig sampleDb (replying "改善要望") categories
            categories.reverse ⟨"inq-1"⟩).table key = sampleDb.table key)
        ∧ ∃ old new category, sampleDb.table "inq-1" = some old
            ∧ (JudgeCategory.handler sampleConfig sampleDb (replying "改善要望") categories
                categories.reverse ⟨"inq-1"⟩).table "inq-1" = some new
            ∧ [("inquiry_id", "inq-1"), ("category", "改善要望"), ("status", "success")]
                = [("inquiry_id", "inq-1"), ("category", category), ("status", "success")]
            ∧ new "category" = some category ∧ new "status" = some "categorized"
            ∧ new "reviewText" = old "reviewText" ∧ new "answer" = old "answer"
            ∧ ∀ name, name ≠ "category" → name ≠ "status" → new name = old name)
      ∧ ((∀ key, key ≠ "inq-1" →
          (CreateAnswer.handler sampleConfig sampleDb answeringService ⟨"inq-1"⟩).table key
            = sampleDb.table key)
        ∧ ∃ old new answer, sampleDb.table "inq-1" = some old
            ∧ (CreateAnswer.handler sampleConfig sampleDb answeringService ⟨"inq-1"⟩).table
                "inq-1" = some new
            ∧ [("inquiry_id", "inq-1"), ("answer", "営業時間は9時から18時です。"),
                  ("status", "success")]
                = [("inquiry_id", "inq-1"), ("answer", answer), ("status", "success")]
            ∧ new "answer" = some answer ∧ new "status" = some "answered"
            ∧ new "reviewText" = old "reviewText" ∧ new "category" = old "category"
            ∧ ∀ name, name ≠ "answer" → name ≠ "status" → new name = old name) :=
  ⟨(successful_invocation_footprint sampleConfig sampleDb ⟨"inq-1"⟩).1 (replying "改善要望")
      categories categories.reverse _ rfl,
    (successful_invocation_footprint sampleConfig sampleDb ⟨"inq-1"⟩).2 answeringService _ rfl⟩

end InquiryLambdas
